import Mathlib

/-!
Verification development for the OpenDRIVE network importer core
(`src/netimport/NIImporter_OpenDrive.cpp`).

The C++ source is shallowly embedded: `double` becomes `ℚ`,
`std::string` stays `String` (identifier ordering is modelled on the
character list), `std::vector`/`std::set`/`std::map` become lists, and
fallible steps return `Option`.  Helpers that live outside this
repository (the geometry library in `utils/geom`, the vehicle-class
bitmask, the type catalogue, the Fresnel kernel `odrSpiral`) are
modelled from the spec; every such definition carries a doc comment
saying so.  Line numbers refer to `NIImporter_OpenDrive.cpp`.
-/

namespace OpenDriveImport

/-- Modelled from the spec: `POSITION_EPS`, the geometric epsilon of the
external geometry library (0.1 m); the spec calls it ε. -/
def POSITION_EPS : ℚ := 1/10

/-- A 2D point.  The importer's `Position` restricted to the plane; the
z coordinate is produced by the separate elevation pass and plays no
role in any claim. -/
abbrev Pos := ℚ × ℚ

/-- Modelled from the spec: `Position::almostSame`, Euclidean distance
strictly within `POSITION_EPS` (stated on squared distances to stay
inside ℚ). -/
def almostSame (p q : Pos) : Bool :=
  decide ((p.1 - q.1)^2 + (p.2 - q.2)^2 < POSITION_EPS^2)

/-- Modelled from the spec: `PositionVector::push_back_noDoublePos`
appends a point unless it is `almostSame` as the current last point. -/
def push_back_noDoublePos (v : List Pos) (p : Pos) : List Pos :=
  match v.getLast? with
  | none => [p]
  | some b => if almostSame p b then v else v ++ [p]

/-- The tag of a parametric geometry segment (`GeometryType`). -/
inductive GeomType where
  | unknown
  | line
  | spiral
  | arc
  | poly3
  | paramPoly3
deriving DecidableEq, Repr

/-- One step of the polyline concatenation in `computeShapes`
(lines 1129–1144): append the discretisation `geom` of the next segment
to the accumulated polyline `egeom`.  When the previous segment was a
`Line` and the polyline is non-empty, the previous final vertex is
removed (`pop_back`); the "Mismatched geometry" warning fires exactly
when, in that situation, the junction vertices are not `almostSame`.
Returns the new polyline and whether the warning fired. -/
def addSegment (egeom : List Pos) (prevType : GeomType) (geom : List Pos) :
    List Pos × Bool :=
  if egeom.length > 0 ∧ prevType = GeomType.line then
    let warn := match egeom.getLast?, geom.head? with
      | some a, some b => !(almostSame a b)
      | _, _ => false
    (geom.foldl push_back_noDoublePos egeom.dropLast, warn)
  else
    (geom.foldl push_back_noDoublePos egeom, false)

/-- The fold state of `computeShapes`: the accumulated polyline, the
previous segment's tag, and the most recently sampled point (`last`). -/
structure ShapeAcc where
  geom : List Pos
  prevType : GeomType
  lastPt : Option Pos
deriving Repr

/-- Process one segment (tag plus its discretisation) inside
`computeShapes`' segment loop (lines 1105–1145). -/
def addSegmentFull (acc : ShapeAcc) (seg : GeomType × List Pos) : ShapeAcc :=
  { geom := (addSegment acc.geom acc.prevType seg.2).1
    prevType := seg.1
    lastPt := match seg.2.getLast? with
      | some p => some p
      | none => acc.lastPt }

/-- The polyline-concatenation core of `computeShapes` for one road:
fold all segment discretisations, then fix up a length-1 polyline with
the last sampled point (lines 1146–1149).  The injected projection and
the optional `geometry.min-dist` filter are identities in the
configurations the claims concern and are not modelled. -/
def computeShape (segs : List (GeomType × List Pos)) : List Pos :=
  let acc := segs.foldl addSegmentFull ⟨[], GeomType.unknown, none⟩
  match acc.geom, acc.lastPt with
  | [p], some l => if p ≠ l then [p, l] else [p]
  | g, _ => g

/-- The raw geometry record (`OpenDriveGeometry`): length, anchor
arclength, world start, heading, and the variant parameters. -/
structure OpenDriveGeometry where
  length : ℚ
  s : ℚ
  x : ℚ
  y : ℚ
  hdg : ℚ
  params : List ℚ
deriving Repr

/-- `geomFromSpiral` (lines 1311–1373).  The degenerate guard
(`cDot == 0 || length == 0`, lines 1318–1323) is embedded exactly: it
warns and returns just the segment's start point.  The non-degenerate
clothoid sampling calls the external `odrSpiral` Fresnel kernel
(`foreign/eulerspiral`, not part of this repository) and is abstracted
as the argument `ext`.  Returns the polyline and whether the degeneracy
warning fired.  (In ℚ a division by zero yields 0, so the embedded
guard also covers the C++ `length == 0` disjunct.) -/
def geomFromSpiral (ext : OpenDriveGeometry → List Pos)
    (g : OpenDriveGeometry) : List Pos × Bool :=
  let curveStart := g.params.getD 0 0
  let curveEnd := g.params.getD 1 0
  let cDot := (curveEnd - curveStart) / g.length
  if cDot = 0 ∨ g.length = 0 then ([(g.x, g.y)], true)
  else (ext g, false)

/-- `revertID` (lines 1041–1046): flip the `-` prefix of an edge
identifier.  `std::string` is modelled by its character list; the C++
`id[0]` on an empty `std::string` reads the terminating null character,
which is not `'-'`, so the empty string takes the prepend branch. -/
def revertID : List Char → List Char
  | '-' :: rest => rest
  | id => '-' :: id

/-- The speed-unit conversion in `myStartElement`'s
`OPENDRIVE_TAG_SPEED` case (lines 1961–1980): an explicit `"km/h"`
divides by 3.6, `"mph"` multiplies by 1.609344/3.6, and any other
non-empty unit (and the empty default) keeps the raw value. -/
def parseLaneSpeed (raw : ℚ) (unit : String) : ℚ :=
  if unit = "" then raw
  else
    let speed := if unit = "km/h" then raw / (36/10) else raw
    if unit = "mph" then speed * ((1609344/1000000) / (36/10)) else speed

/-- Modelled from the spec: `std::string` `operator<`, lexicographic on
the character sequence. -/
def strLt : List Char → List Char → Bool
  | [], [] => false
  | [], _ :: _ => true
  | _ :: _, [] => false
  | a :: as, b :: bs => a < b || (a == b && strLt as bs)

/-- The node identifier synthesised for a direct link between two outer
roads (lines 276–282): concatenate the two road ids with `"."`, after
swapping so that the lexicographically greater id comes first. -/
def outerLinkNodeID (eid lid : String) : String :=
  if strLt eid.data lid.data then lid ++ "." ++ eid else eid ++ "." ++ lid

/-- Link direction (`OPENDRIVE_LT_*`). -/
inductive LinkType where
  | predecessor
  | successor
deriving DecidableEq, Repr

/-- Link target kind (`OPENDRIVE_ET_*`). -/
inductive ElementType where
  | road
  | junction
deriving DecidableEq, Repr

/-- Contact point of a link (`OPENDRIVE_CP_*`). -/
inductive ContactPoint where
  | cpStart
  | cpEnd
deriving DecidableEq, Repr

/-- A road link record (`OpenDriveLink`). -/
structure OpenDriveLink where
  linkType : LinkType
  elementType : ElementType
  elementID : String
  contactPoint : ContactPoint
deriving DecidableEq, Repr

/-- The from/to node bindings of one road (the `e->from`/`e->to`
fields, by node identifier). -/
structure EndpointAssignment where
  fromNode : Option String
  toNode : Option String
deriving DecidableEq, Repr

/-- `setNodeSecure` (lines 1063–1081): bind one endpoint of a road to a
node id; `none` models the `ProcessError` thrown when the endpoint is
already bound to a different node. -/
def setNodeSecure (a : EndpointAssignment) (nodeID : String)
    (lt : LinkType) : Option EndpointAssignment :=
  match lt with
  | .successor =>
    match a.toNode with
    | none => some { a with toNode := some nodeID }
    | some n => if n = nodeID then some a else none
  | .predecessor =>
    match a.fromNode with
    | none => some { a with fromNode := some nodeID }
    | some n => if n = nodeID then some a else none

/-- The `build nodes#2` loop body (lines 268–298) for one outer road:
walk its links; each link that targets a road that is not inner
synthesises an `outerLinkNodeID` and binds the corresponding endpoint
(successor → to-node, predecessor → from-node). -/
def assignOuterLinkNodes (inner : List String) (eid : String) :
    List OpenDriveLink → EndpointAssignment → Option EndpointAssignment
  | [], a => some a
  | l :: rest, a =>
    if l.elementType ≠ ElementType.road ∨ l.elementID ∈ inner then
      assignOuterLinkNodes inner eid rest a
    else
      match setNodeSecure a (outerLinkNodeID eid l.elementID) l.linkType with
      | none => none
      | some a' => assignOuterLinkNodes inner eid rest a'

/-- Modelled from the spec: `UNSET_CONNECTION`, the sentinel for an
unset predecessor/successor lane id (declared in the importer's header,
which is not part of this repository). -/
def UNSET_CONNECTION : Int := 100000

/-- Modelled from the spec: `NBEdge::UNSPECIFIED_WIDTH` (−1), the
sentinel meaning "no explicit lane width was parsed". -/
def UNSPECIFIED_WIDTH : ℚ := -1

/-- Modelled from the spec: distinct bits of the external vehicle-class
bitmask (`SUMOVehicleClass`); only their distinctness matters here. -/
def SVC_EMERGENCY : Nat := 2

/-- Modelled from the spec: see `SVC_EMERGENCY`. -/
def SVC_AUTHORITY : Nat := 4

/-- Modelled from the spec: see `SVC_EMERGENCY`. -/
def SVC_PEDESTRIAN : Nat := 32

/-- Modelled from the spec: see `SVC_EMERGENCY`. -/
def SVC_PASSENGER : Nat := 64

/-- Modelled from the spec: see `SVC_EMERGENCY`. -/
def SVC_BICYCLE : Nat := 1024

/-- A lane record (`OpenDriveLane`).  The list of width cubics is not
carried; the resolved `width` field is, since no claim inspects the
cubics themselves. -/
structure OpenDriveLane where
  id : Int
  type : String
  speed : ℚ := 0
  speeds : List (ℚ × ℚ) := []
  width : ℚ := UNSPECIFIED_WIDTH
  predecessor : Int := UNSET_CONNECTION
  successor : Int := UNSET_CONNECTION
deriving DecidableEq, Repr

/-- A lane section (`OpenDriveLaneSection`): start arclength `s`, its
original value `sOrig`, the three per-side lane lists (the
`lanesByDir` map), and the outputs of `buildLaneMapping`. -/
structure OpenDriveLaneSection where
  s : ℚ
  sOrig : ℚ
  lanesLeft : List OpenDriveLane := []
  lanesCenter : List OpenDriveLane := []
  lanesRight : List OpenDriveLane := []
  laneMap : List (Int × Nat) := []
  rightLaneNumber : Nat := 0
  leftLaneNumber : Nat := 0
  rightType : String := ""
  leftType : String := ""
deriving DecidableEq, Repr

/-- Modelled from the spec: the type catalogue (`NBTypeCont`), an
external read-only collaborator, as plain per-type query functions. -/
structure TypeCont where
  speed : String → ℚ
  permissions : String → Nat
  width : String → ℚ
  widthResolution : String → ℚ
  maxWidth : String → ℚ
  knows : String → Bool
  discarded : String → Bool

/-- The filter of `buildLaneMapping` (lines 1536, 1551): a lane is kept
when all types are imported, or its type is known and not discarded. -/
def laneKept (tc : TypeCont) (importAllTypes : Bool)
    (l : OpenDriveLane) : Bool :=
  importAllTypes || (tc.knows l.type && !tc.discarded l.type)

/-- The joined type descriptor of `buildLaneMapping`: the single type
when all kept lanes agree with the first, else all types joined by
`"|"`, and `""` when no lane is kept. -/
def joinedType (types : List String) : String :=
  match types with
  | [] => ""
  | t :: _ => if types.all (fun x => x = t) then t
              else String.intercalate "|" types

/-- `OpenDriveLaneSection::buildLaneMapping` (lines 1529–1561): assign
compact output indices 0,1,… to the kept lanes — right lanes walking
the stored list in reverse, left lanes walking it forwards — and record
the per-side lane counts and joined type strings. -/
def buildLaneMapping (tc : TypeCont) (importAllTypes : Bool)
    (sec : OpenDriveLaneSection) : OpenDriveLaneSection :=
  let keptR := sec.lanesRight.reverse.filter (laneKept tc importAllTypes)
  let keptL := sec.lanesLeft.filter (laneKept tc importAllTypes)
  { sec with
    laneMap := keptR.enum.map (fun p => (p.2.id, p.1)) ++
               keptL.enum.map (fun p => (p.2.id, p.1))
    rightLaneNumber := keptR.length
    leftLaneNumber := keptL.length
    rightType := joinedType (keptR.map (fun l => l.type))
    leftType := joinedType (keptL.map (fun l => l.type)) }

/-- `OpenDriveLaneSection::buildLaneSection` (lines 1603–1624): clone
the section at `s + startPos`; each right and left lane's effective
speed is re-set from its speed entry anchored exactly at `startPos`
(`same_position_finder`), or 0 when there is none. -/
def buildLaneSection (sec : OpenDriveLaneSection) (startPos : ℚ) :
    OpenDriveLaneSection :=
  let reset := fun (l : OpenDriveLane) =>
    { l with speed := match l.speeds.find? (fun p => p.1 == startPos) with
        | some p => p.2
        | none => 0 }
  { sec with s := sec.s + startPos
             lanesRight := sec.lanesRight.map reset
             lanesLeft := sec.lanesLeft.map reset }

/-- Ordered insertion into the `std::set<double>` of speed-change
positions (duplicates collapse). -/
def setInsert (x : ℚ) : List ℚ → List ℚ
  | [] => [x]
  | y :: ys => if x < y then x :: y :: ys
               else if x = y then y :: ys
               else y :: setInsert x ys

/-- One propagation step of `buildSpeedChanges` (lines 1673–1683) over
one direction's lane list: a lane with speed 0 inherits the speed of
the same-index lane of the previous split section. -/
def propagateLanes (prev cur : List OpenDriveLane) : List OpenDriveLane :=
  List.zipWith (fun (p l : OpenDriveLane) =>
    if l.speed ≠ 0 then l else { l with speed := p.speed }) prev cur

/-- The tail of the propagation loop of `buildSpeedChanges`: each
section after the first reads the already-updated previous section. -/
def propagateSpeedsGo (prev : OpenDriveLaneSection) :
    List OpenDriveLaneSection → List OpenDriveLaneSection
  | [] => []
  | sec :: rest =>
    let sec := { sec with
      lanesLeft := propagateLanes prev.lanesLeft sec.lanesLeft
      lanesCenter := propagateLanes prev.lanesCenter sec.lanesCenter
      lanesRight := propagateLanes prev.lanesRight sec.lanesRight }
    sec :: propagateSpeedsGo sec rest

/-- The speed-propagation loop of `buildSpeedChanges`
(lines 1667–1685).  For the first split section (`i == 0`) the source
computes `tc.getSpeed(l.type)` on line 1681 but never assigns it, so a
lane without a matching entry keeps speed 0 there; the embedding
reproduces that behaviour, which is what claim C2 is about. -/
def propagateSpeeds : List OpenDriveLaneSection → List OpenDriveLaneSection
  | [] => []
  | first :: rest => first :: propagateSpeedsGo first rest

/-- `OpenDriveLaneSection::buildSpeedChanges` (lines 1627–1687): apply
0-offset speed entries to the section itself, collect the set of speed
change positions from both sides, ensure position 0 is present, and
replace the section by one clone per position (the first being the
section itself), with speeds propagated forward. -/
def buildSpeedChanges (tc : TypeCont) (sec : OpenDriveLaneSection) :
    Bool × List OpenDriveLaneSection :=
  let applyZero := fun (l : OpenDriveLane) =>
    let sp := l.speeds.foldl (fun sp e => if e.1 == 0 then e.2 else sp) l.speed
    { l with speed := sp }
  let sec := { sec with lanesRight := sec.lanesRight.map applyZero
                        lanesLeft := sec.lanesLeft.map applyZero }
  let positions := (sec.lanesRight ++ sec.lanesLeft).foldl
      (fun acc l => l.speeds.foldl (fun acc e => setInsert e.1 acc) acc) []
  match positions with
  | [] => (false, [sec])
  | p0 :: rest =>
    let tailPositions := if 0 < p0 then p0 :: rest else rest
    (true, propagateSpeeds (sec :: tailPositions.map (buildLaneSection sec)))

/-- The strict-order check of `revisitLaneSections` (lines 1255–1263),
run with the sentinel `lastS = -1`. -/
def sectionsSortedOD (lastS : ℚ) : List OpenDriveLaneSection → Bool
  | [] => true
  | sec :: rest => if sec.s ≤ lastS then false else sectionsSortedOD sec.s rest

/-- Modelled from the spec: `sections_by_s_sorter` (declared in the
importer's header) orders lane sections by ascending `s`; the
`std::sort` call of line 1266 is realised with `List.mergeSort`. -/
def sortSections (l : List OpenDriveLaneSection) : List OpenDriveLaneSection :=
  l.mergeSort (fun a b => decide (a.s ≤ b.s))

/-- The near-duplicate filter of `revisitLaneSections`
(lines 1269–1282): walk the list carrying the previous element's `s` in
`lastS` (updated even across removals); a road that is not inner drops
a section whose `s` is within `POSITION_EPS` of `lastS`. -/
def pruneSimilar (isInner : Bool) (lastS : ℚ) :
    List OpenDriveLaneSection → List OpenDriveLaneSection
  | [] => []
  | sec :: rest =>
    if |sec.s - lastS| < POSITION_EPS ∧ isInner = false then
      pruneSimilar isInner sec.s rest
    else sec :: pruneSimilar isInner sec.s rest

/-- `revisitLaneSections` for one road (lines 1230–1287): replace every
section by its speed-change split (the split list is the mutated
section itself when no split occurred), then sort when the `s` values
are not strictly increasing, then drop near-duplicate `s` values for
roads that are not inner. -/
def revisitLaneSections (tc : TypeCont) (isInner : Bool)
    (sections : List OpenDriveLaneSection) : List OpenDriveLaneSection :=
  let ns := sections.flatMap (fun sec => (buildSpeedChanges tc sec).2)
  let sorted := if sectionsSortedOD (-1) ns then ns else sortSections ns
  pruneSimilar isInner (-1) sorted

/-- The per-lane output of `setLaneAttributes`: effective speed,
permission bitmask and width of one SUMO lane. -/
structure SumoLane where
  speed : ℚ
  permissions : Nat
  width : ℚ
deriving DecidableEq, Repr

/-- The width `setLaneAttributes` works with before quantisation
(line 755): the parsed lane width when width import is on and a width
was given, else the type default. -/
def preQuantWidth (tc : TypeCont) (importWidths : Bool)
    (odLane : OpenDriveLane) : ℚ :=
  if importWidths ∧ odLane.width ≠ UNSPECIFIED_WIDTH then odLane.width
  else tc.width odLane.type

/-- `setLaneAttributes` (lines 748–783) as a function of the lane, the
type catalogue and the configuration (`myImportWidths`, `myMinWidth`).
`forbiddenNarrow` is decided on the width before quantisation; when a
forbidden-narrow lane quantises to at least the minimum width, one
quantisation step is subtracted (with a positive fallback), and at the
end its permissions become `SVC_EMERGENCY | SVC_AUTHORITY`. -/
def setLaneAttributes (tc : TypeCont) (importWidths : Bool) (minWidth : ℚ)
    (odLane : OpenDriveLane) : SumoLane :=
  let speed := if odLane.speed ≠ 0 then odLane.speed else tc.speed odLane.type
  let permissions := tc.permissions odLane.type
  let width := preQuantWidth tc importWidths odLane
  let widthResolution := tc.widthResolution odLane.type
  let maxWidth := tc.maxWidth odLane.type
  let forbiddenNarrow := width < minWidth ∧
      permissions &&& SVC_PASSENGER ≠ 0 ∧ width < tc.width odLane.type
  let width :=
    if 0 ≤ width ∧ 0 < widthResolution then
      let w := ((⌊width / widthResolution + 1/2⌋ : ℤ) : ℚ) * widthResolution
      if forbiddenNarrow ∧ minWidth ≤ w then
        let w := w - widthResolution
        if w ≤ 0 then max POSITION_EPS (minWidth - POSITION_EPS) else w
      else if w = 0 then widthResolution
      else w
    else width
  let width := if 0 < maxWidth then min width maxWidth else width
  let permissions := if forbiddenNarrow then SVC_EMERGENCY ||| SVC_AUTHORITY
                     else permissions
  { speed := speed, permissions := permissions, width := width }

/-- Modelled from the spec: SUMO's `toString(double)` prints with fixed
two-decimal precision (`gPrecision == 2`); embedded for nonnegative
rationals by rounding half up to hundredths. -/
def fmt2 (q : ℚ) : String :=
  let n := (⌊q * 100 + 1/2⌋ : ℤ).toNat
  let frac := n % 100
  toString (n / 100) ++ "." ++
    (if frac < 10 then "0" ++ toString frac else toString frac)

/-- A node reference in the edge-building loop: the road's own from or
to node, or a freshly inserted interior node (a fresh `NBNode`
allocation compares unequal, as a pointer, to both endpoints). -/
inductive NodeRef where
  | roadFrom
  | roadTo
  | interior (k : Nat)
deriving DecidableEq, Repr

/-- One emitted SUMO edge: identifier, source and target node
reference, and lane count. -/
structure EmittedEdge where
  id : String
  src : NodeRef
  dst : NodeRef
  numLanes : Nat
deriving DecidableEq, Repr

/-- The lane-section loop of the edge builder (lines 392–494) for one
outer road.  `sFrom` starts at the road's from node; `sTo` is the
road's to node at the last section and a fresh interior node otherwise.
The identifier receives the `"." ++ toString(s)` suffix when `sFrom` or
`sTo` differs from the road's endpoints (a pointer comparison), and the
fixed suffix `".0.00"` when the road has exactly one lane section
(lines 406–411).  A right (forward) edge `"-" ++ id` and a left
(backward) edge `id` are emitted for each side that has lanes. -/
def buildSectionEdges (roadId : String) (eFrom eTo : NodeRef) (total : Nat) :
    Nat → NodeRef → List OpenDriveLaneSection → List EmittedEdge
  | _, _, [] => []
  | j, sFrom, sec :: rest =>
    let sTo := if rest = [] then eTo else NodeRef.interior j
    let id := if sFrom ≠ eFrom ∨ sTo ≠ eTo then roadId ++ "." ++ fmt2 sec.s
              else if total = 1 then roadId ++ ".0.00"
              else roadId
    let right := if 0 < sec.rightLaneNumber then
        [{ id := "-" ++ id, src := sFrom, dst := sTo,
           numLanes := sec.rightLaneNumber }] else []
    let left := if 0 < sec.leftLaneNumber then
        [{ id := id, src := sTo, dst := sFrom,
           numLanes := sec.leftLaneNumber }] else []
    right ++ left ++ buildSectionEdges roadId eFrom eTo total (j + 1) sTo rest

/-- The edge builder for one outer road (lines 352–494): a road with
fewer than 2 polyline vertices is skipped with a warning; a loop road
(from node equal to to node) with a single lane section is first split
in half (lines 379–385).  `fromEqTo` records whether
`e->from == e->to`.  Pass B (`splitMinWidths`) is the identity in the
configurations the claims exercise and is not applied here. -/
def buildRoadEdges (roadId : String) (fromEqTo : Bool) (length : ℚ)
    (geom : List Pos) (sections : List OpenDriveLaneSection) :
    List EmittedEdge :=
  if geom.length < 2 then []
  else
    let eFrom := NodeRef.roadFrom
    let eTo := if fromEqTo then NodeRef.roadFrom else NodeRef.roadTo
    let sections := match sections with
      | [s0] => if fromEqTo then [s0, { s0 with s := length / 2 }] else [s0]
      | l => l
    buildSectionEdges roadId eFrom eTo sections.length 0 eFrom sections

/-- A lane-to-lane connection tuple (`Connection`).  The optional
interpolated `shape` is a purely geometric payload and is not carried
by the embedding. -/
structure Connection where
  fromEdge : String
  toEdge : String
  fromLane : Int
  toLane : Int
  fromCP : ContactPoint
  toCP : ContactPoint
  all : Bool
  origID : String := ""
  origLane : Int := 0
deriving DecidableEq, Repr

/-- The comparison key of `Connection::operator<` (lines 2141–2153):
`std::set` membership identifies connections by
(fromEdge, toEdge, fromLane, toLane). -/
def connKey (c : Connection) : String × String × Int × Int :=
  (c.fromEdge, c.toEdge, c.fromLane, c.toLane)

/-- The `seen` set of the flattening walk, by connection key. -/
abbrev SeenSet := List (String × String × Int × Int)

/-- The per-road record used by the connection flattener: the road's
stored outgoing connections and its lane sections. -/
structure EdgeRec where
  connections : List Connection
  laneSections : List OpenDriveLaneSection
deriving Repr

/-- The road table (`std::map<std::string, OpenDriveEdge*>`) as an
association list. -/
abbrev EdgeTable := List (String × EdgeRec)

/-- Keyed lookup in a road table. -/
def lookupEdge (t : EdgeTable) (id : String) : Option EdgeRec :=
  (t.find? (fun p => p.1 == id)).map (fun p => p.2)

/-- `laneSectionsConnected` (lines 925–950): an inner road with one
lane section connects lane `inLane` to `outLane` iff they are equal;
otherwise walk every section but the last, rewriting the inbound lane
id through each section's right-lane then left-lane successor links. -/
def laneSectionsConnected (edge : EdgeRec) (inLane outLane : Int) : Bool :=
  if edge.laneSections.length = 1 then inLane == outLane
  else
    let step := fun (acc : Int) (sec : OpenDriveLaneSection) =>
      let acc := sec.lanesRight.foldl
        (fun acc l => if l.id = acc then l.successor else acc) acc
      sec.lanesLeft.foldl (fun acc l => if l.id = acc then l.successor else acc)
        acc
    (edge.laneSections.dropLast.foldl step inLane) == outLane

/-- Copy the walk's outer origin onto a connection returned by a deeper
walk (lines 818–822). -/
def rewriteFrom (c j : Connection) : Connection :=
  { j with fromEdge := c.fromEdge, fromLane := c.fromLane,
           fromCP := c.fromCP, all := c.all }

/-- The flattened outer→outer connection emitted when the walk reaches
a connection that leaves the junction (lines 833–839). -/
def rewriteOuter (c i : Connection) : Connection :=
  { i with fromEdge := c.fromEdge, fromLane := c.fromLane,
           fromCP := c.fromCP, all := c.all,
           origID := c.toEdge, origLane := c.toLane }

/-- The loop of `buildConnectionsToOuter` over the destination's stored
connections (lines 805–921), parameterised by the walk at decremented
fuel (`recur`).  A connection towards another inner road recurses
unless its key was already seen (the circular-junction warning);
a connection towards an outer road is emitted when the destination's
lane sections actually connect the inbound lane to its from-lane. -/
def buildStep (recur : Connection → SeenSet → List Connection × SeenSet)
    (inner : EdgeTable) (dest : EdgeRec) (c : Connection) :
    List Connection → List Connection × SeenSet →
    List Connection × SeenSet
  | [], acc => acc
  | i :: rest, acc =>
    if (lookupEdge inner i.toEdge).isSome then
      if connKey i ∉ acc.2 then
        let r := recur i acc.2
        buildStep recur inner dest c rest
          (acc.1 ++ r.1.map (rewriteFrom c), r.2)
      else
        buildStep recur inner dest c rest acc
    else
      if laneSectionsConnected dest c.toLane i.fromLane then
        buildStep recur inner dest c rest (acc.1 ++ [rewriteOuter c i], acc.2)
      else
        buildStep recur inner dest c rest acc

/-- `buildConnectionsToOuter` (lines 785–922), fuel-indexed: look up
the inner destination (`none` is the null guard of line 799), mark the
connection seen, and process the destination's connections. -/
def buildConnectionsToOuter (fuel : Nat) (inner : EdgeTable)
    (c : Connection) (seen : SeenSet) : List Connection × SeenSet :=
  match fuel with
  | 0 => ([], seen)
  | fuel + 1 =>
    match lookupEdge inner c.toEdge with
    | none => ([], seen)
    | some dest =>
      buildStep (buildConnectionsToOuter fuel inner) inner dest c
        dest.connections ([], connKey c :: seen)

/-- One connection of the flattening stage (lines 557–567): skipped
when its origin is inner, flattened by the walk when its destination is
inner, emitted unchanged otherwise. -/
def flattenOne (fuel : Nat) (inner : EdgeTable) (c : Connection) :
    List Connection :=
  if (lookupEdge inner c.fromEdge).isSome then []
  else if (lookupEdge inner c.toEdge).isSome then
    (buildConnectionsToOuter fuel inner c []).1
  else [c]

/-- The connection flattener (lines 553–569): process every stored
connection of every road of the table. -/
def flattenConnections (fuel : Nat) (inner : EdgeTable) (edges : EdgeTable) :
    List Connection :=
  edges.flatMap (fun e => e.2.connections.flatMap (flattenOne fuel inner))

/-! ## Claim C9: speed-unit conversion -/

/-- C9: a parsed lane speed equals the raw value under the default
empty unit, the raw value divided by 3.6 for "km/h", the raw value
multiplied by 1.609344/3.6 for "mph", and the raw value unchanged for
any other (unknown) unit string. -/
theorem C9_unit_conversion (raw : ℚ) :
    parseLaneSpeed raw "" = raw ∧
    parseLaneSpeed raw "km/h" = raw / (36/10) ∧
    parseLaneSpeed raw "mph" = raw * ((1609344/1000000) / (36/10)) ∧
    ∀ u : String, u ≠ "" → u ≠ "km/h" → u ≠ "mph" →
      parseLaneSpeed raw u = raw := by
  refine ⟨?_, ?_, ?_, ?_⟩
  · simp [parseLaneSpeed]
  · simp [parseLaneSpeed, show ("km/h" : String) ≠ "" by decide,
      show ("km/h" : String) ≠ "mph" by decide]
  · simp [parseLaneSpeed, show ("mph" : String) ≠ "" by decide,
      show ("mph" : String) ≠ "km/h" by decide]
  · intro u h1 h2 h3
    simp [parseLaneSpeed, h1, h2, h3]

/-- C9 witness: an unknown unit string keeps the raw value. -/
theorem C9_unit_conversion_witness : parseLaneSpeed 10 "knots" = 10 :=
  (C9_unit_conversion 10).2.2.2 "knots" (by decide) (by decide) (by decide)

/-! ## Claim C10: the sign toggle `revertID` -/

/-- C10 counterexample: `revertID` is not an involution on every
non-empty identifier — applying it twice to "--a" yields "a". -/
theorem C10_counterexample :
    revertID (revertID ['-', '-', 'a']) = ['a'] ∧
    revertID (revertID ['-', '-', 'a']) ≠ ['-', '-', 'a'] := by
  decide

/-- Equation of `revertID` on identifiers with a leading dash. -/
theorem revertID_dash (rest : List Char) : revertID ('-' :: rest) = rest :=
  rfl

/-- Equation of `revertID` on identifiers without a leading dash. -/
theorem revertID_no_dash : ∀ (id : List Char), id.head? ≠ some '-' →
    revertID id = '-' :: id
  | [], _ => rfl
  | c :: rest, h => by
    have hc : c ≠ '-' := by simpa using h
    rw [revertID.eq_def]
    split
    · rename_i r heq
      injection heq with h1 _
      exact absurd h1 hc
    · rfl

/-- C10 amended: `revertID` is an involution on every non-empty
identifier that does not begin with two '-' characters. -/
theorem C10_amended_involution (id : List Char) (h1 : id ≠ [])
    (h2 : id.take 2 ≠ ['-', '-']) : revertID (revertID id) = id := by
  match id, h1 with
  | c :: rest, _ =>
    by_cases hc : c = '-'
    · subst hc
      rw [revertID_dash]
      match rest with
      | [] => rfl
      | d :: rs =>
        have hd : d ≠ '-' := by
          intro h
          exact h2 (by simp [h, List.take])
        rw [revertID_no_dash (d :: rs) (by simpa using hd)]
    · rw [revertID_no_dash (c :: rest) (by simpa using hc), revertID_dash]

/-- C10 witness: the involution on an ordinary identifier. -/
theorem C10_amended_involution_witness :
    revertID (revertID ['-', 'a']) = ['-', 'a'] :=
  C10_amended_involution ['-', 'a'] (by decide) (by decide)

/-! ## Claim C3: segment-junction handling in the Geometry Engine -/

/-- C3 counterexample: with a preceding Line segment ending at (1,0)
and a next segment starting at (5,5) — not `almostSame` — the code
emits the warning but still drops the previous endpoint (1,0); the
claim instead states that both vertices are kept in that case. -/
theorem C3_counterexample :
    (addSegment [(0, 0), (1, 0)] GeomType.line [(5, 5), (6, 5)]).2 = true ∧
    ((1 : ℚ), (0 : ℚ)) ∉
      (addSegment [(0, 0), (1, 0)] GeomType.line [(5, 5), (6, 5)]).1 := by
  have h : addSegment [(0, 0), (1, 0)] GeomType.line [(5, 5), (6, 5)] =
      ([(0, 0), (5, 5), (6, 5)], true) := by
    norm_num [addSegment, push_back_noDoublePos, almostSame, POSITION_EPS]
  rw [h]
  norm_num

/-- C3 amended: when the previous segment was a Line and the polyline
is non-empty, the previous endpoint is dropped unconditionally; the
"Mismatched geometry" warning fires exactly when the two junction
vertices are not `almostSame`. -/
theorem C3_amended_drop_and_warn (egeom geom : List Pos) (h : egeom ≠ []) :
    (addSegment egeom GeomType.line geom).1 =
      geom.foldl push_back_noDoublePos egeom.dropLast ∧
    ∀ a b, egeom.getLast? = some a → geom.head? = some b →
      (addSegment egeom GeomType.line geom).2 = !(almostSame a b) := by
  have hp : egeom.length > 0 := List.length_pos.mpr h
  constructor
  · simp [addSegment, hp]
  · intro a b ha hb
    simp [addSegment, hp, ha, hb]

/-- C3 witness: matching junction vertices produce no warning while the
previous Line endpoint is still removed. -/
theorem C3_amended_drop_and_warn_witness :
    (addSegment [(0, 0), (1, 0)] GeomType.line [(1, 0), (2, 0)]).2 = false := by
  have h := (C3_amended_drop_and_warn [(0, 0), (1, 0)] [(1, 0), (2, 0)]
      (by decide)).2 (1, 0) (1, 0) (by norm_num) (by norm_num)
  rw [h]
  norm_num [almostSame, POSITION_EPS]

/-! ## Claim C4: node synthesis for outer-to-outer links -/

/-- C4 counterexample: for roads "A" and "B" the synthesized node id is
"B.A" — the greater id first — not the ascending "A.B" of the claim. -/
theorem C4_counterexample :
    outerLinkNodeID "A" "B" = "B.A" ∧ outerLinkNodeID "A" "B" ≠ "A.B" := by
  decide

/-- Asymmetry of the modelled `std::string` comparison. -/
theorem strLt_asymm : ∀ x y : List Char, strLt x y = true → strLt y x = false
  | [], [] => by simp [strLt]
  | [], _ :: _ => by simp [strLt]
  | _ :: _, [] => by simp [strLt]
  | a :: as, b :: bs => by
    simp only [strLt, Bool.or_eq_true, Bool.and_eq_true, beq_iff_eq,
      decide_eq_true_eq, Bool.or_eq_false_iff, Bool.and_eq_false_iff,
      decide_eq_false_iff_not, beq_eq_false_iff_ne, ne_eq]
    rintro (h | ⟨rfl, h⟩)
    · exact ⟨not_lt_of_lt h, Or.inl (ne_of_gt h)⟩
    · exact ⟨lt_irrefl a, Or.inr (strLt_asymm as bs h)⟩

/-- Totality of the modelled `std::string` comparison on distinct
strings. -/
theorem strLt_total_ne : ∀ x y : List Char, x ≠ y →
    strLt x y = true ∨ strLt y x = true
  | [], [] => fun h => absurd rfl h
  | [], _ :: _ => fun _ => Or.inl (by simp [strLt])
  | _ :: _, [] => fun _ => Or.inr (by simp [strLt])
  | a :: as, b :: bs => fun h => by
    rcases lt_trichotomy a b with hab | hab | hab
    · exact Or.inl (by simp [strLt, hab])
    · subst hab
      have hne : as ≠ bs := fun hh => h (by rw [hh])
      rcases strLt_total_ne as bs hne with ht | ht
      · exact Or.inl (by simp [strLt, ht])
      · exact Or.inr (by simp [strLt, ht])
    · exact Or.inr (by simp [strLt, hab])

/-- C4 amended: the synthesized node identifier concatenates the two
road ids in DESCENDING lexicographic order (greater id first, separated
by "."); it does not depend on which of the two roads is being
processed, and processing two outer roads carrying reciprocal links
binds the first road's to-node and the second road's from-node to that
same identifier. -/
theorem C4_amended_node_id (a b : String) (hab : a ≠ b) :
    outerLinkNodeID a b = outerLinkNodeID b a ∧
    (strLt a.data b.data = true → outerLinkNodeID a b = b ++ "." ++ a) ∧
    (strLt b.data a.data = true → outerLinkNodeID a b = a ++ "." ++ b) ∧
    assignOuterLinkNodes [] a
        [⟨LinkType.successor, ElementType.road, b, ContactPoint.cpStart⟩]
        ⟨none, none⟩ = some ⟨none, some (outerLinkNodeID a b)⟩ ∧
    assignOuterLinkNodes [] b
        [⟨LinkType.predecessor, ElementType.road, a, ContactPoint.cpEnd⟩]
        ⟨none, none⟩ = some ⟨some (outerLinkNodeID a b), none⟩ := by
  have hdata : a.data ≠ b.data := fun hd => hab (congrArg String.mk hd)
  have hsym : outerLinkNodeID a b = outerLinkNodeID b a := by
    unfold outerLinkNodeID
    rcases strLt_total_ne a.data b.data hdata with ht | ht
    · rw [if_pos ht, if_neg (by rw [strLt_asymm _ _ ht]; exact Bool.false_ne_true)]
    · rw [if_pos ht, if_neg (by rw [strLt_asymm _ _ ht]; exact Bool.false_ne_true)]
  refine ⟨hsym, ?_, ?_, ?_, ?_⟩
  · intro ht
    unfold outerLinkNodeID
    rw [if_pos ht]
  · intro ht
    unfold outerLinkNodeID
    rw [if_neg (by rw [strLt_asymm _ _ ht]; exact Bool.false_ne_true)]
  · simp [assignOuterLinkNodes, setNodeSecure]
  · rw [hsym]
    simp [assignOuterLinkNodes, setNodeSecure]

/-- C4 witness: for roads "A" and "B" both endpoints attach to the node
"B.A". -/
theorem C4_amended_node_id_witness :
    outerLinkNodeID "A" "B" = "B" ++ "." ++ "A" :=
  (C4_amended_node_id "A" "B" (by decide)).2.1 (by decide)

/-! ## Claim C5: the narrow-lane downgrade in `setLaneAttributes` -/

/-- The demonstration lane for claim C5: explicit width 2 m. -/
def laneC5 : OpenDriveLane := { id := -1, type := "driving", width := 2 }

/-- The demonstration type catalogue for claim C5: passenger
permissions, type width 3.65 m, quantisation step 1.9 m. -/
def tcC5 : TypeCont :=
  { speed := fun _ => 1389/100
    permissions := fun _ => SVC_PASSENGER
    width := fun _ => 365/100
    widthResolution := fun _ => 19/10
    maxWidth := fun _ => 0
    knows := fun _ => true
    discarded := fun _ => false }

/-- C5 counterexample: with minimum width 2 m and quantisation step
1.9 m, a passenger-capable lane of parsed width 2 m quantises to 1.9 m
— below the minimum — yet keeps its full permissions, because the code
keys the downgrade on the width before quantisation (2 < 2 fails). -/
theorem C5_counterexample :
    (setLaneAttributes tcC5 true 2 laneC5).width < 2 ∧
    (setLaneAttributes tcC5 true 2 laneC5).permissions &&& SVC_PASSENGER ≠ 0 ∧
    (setLaneAttributes tcC5 true 2 laneC5).permissions ≠
      SVC_EMERGENCY ||| SVC_AUTHORITY := by
  have h : setLaneAttributes tcC5 true 2 laneC5 =
      { speed := 1389/100, permissions := SVC_PASSENGER, width := 19/10 } := by
    norm_num [setLaneAttributes, preQuantWidth, tcC5, laneC5,
      UNSPECIFIED_WIDTH, POSITION_EPS]
  rw [h]
  refine ⟨by norm_num, by decide, by decide⟩

/-- C5 amended: the permissions are downgraded to exactly
Emergency|Authority iff the PRE-quantisation width is below the minimum
width, the lane is passenger-capable, and that width is below the
type-default width; when such a forbidden-narrow lane nevertheless
quantises to a width at or above the minimum, one quantisation step is
subtracted first (with a positive fallback just below the minimum), so
that no spurious at-minimum narrow lane survives with full width. -/
theorem C5_amended_narrow_downgrade (tc : TypeCont) (importWidths : Bool)
    (minWidth : ℚ) (l : OpenDriveLane) :
    ((setLaneAttributes tc importWidths minWidth l).permissions =
      if preQuantWidth tc importWidths l < minWidth ∧
          tc.permissions l.type &&& SVC_PASSENGER ≠ 0 ∧
          preQuantWidth tc importWidths l < tc.width l.type
       then SVC_EMERGENCY ||| SVC_AUTHORITY
       else tc.permissions l.type) ∧
    (preQuantWidth tc importWidths l < minWidth →
     tc.permissions l.type &&& SVC_PASSENGER ≠ 0 →
     preQuantWidth tc importWidths l < tc.width l.type →
     0 ≤ preQuantWidth tc importWidths l →
     0 < tc.widthResolution l.type →
     ¬ 0 < tc.maxWidth l.type →
     minWidth ≤ ((⌊preQuantWidth tc importWidths l /
         tc.widthResolution l.type + 1/2⌋ : ℤ) : ℚ) *
         tc.widthResolution l.type →
     (setLaneAttributes tc importWidths minWidth l).width =
       (if ((⌊preQuantWidth tc importWidths l /
              tc.widthResolution l.type + 1/2⌋ : ℤ) : ℚ) *
            tc.widthResolution l.type - tc.widthResolution l.type ≤ 0
        then max POSITION_EPS (minWidth - POSITION_EPS)
        else ((⌊preQuantWidth tc importWidths l /
              tc.widthResolution l.type + 1/2⌋ : ℤ) : ℚ) *
            tc.widthResolution l.type - tc.widthResolution l.type)) := by
  constructor
  · rfl
  · intro h1 h2 h3 h4 h5 h6 h7
    dsimp only [setLaneAttributes]
    have hA : 0 ≤ preQuantWidth tc importWidths l ∧
        0 < tc.widthResolution l.type := ⟨h4, h5⟩
    have hB : (preQuantWidth tc importWidths l < minWidth ∧
        tc.permissions l.type &&& SVC_PASSENGER ≠ 0 ∧
        preQuantWidth tc importWidths l < tc.width l.type) ∧
        minWidth ≤ ((⌊preQuantWidth tc importWidths l /
          tc.widthResolution l.type + 1/2⌋ : ℤ) : ℚ) *
          tc.widthResolution l.type := ⟨⟨h1, h2, h3⟩, h7⟩
    rw [if_neg h6, if_pos hA, if_pos hB]

/-- The demonstration lane for the C5 witness: explicit width 1.9 m. -/
def laneC5w : OpenDriveLane := { id := -1, type := "driving", width := 19/10 }

/-- The demonstration type catalogue for the C5 witness: quantisation
step 1 m. -/
def tcC5w : TypeCont :=
  { speed := fun _ => 1389/100
    permissions := fun _ => SVC_PASSENGER
    width := fun _ => 365/100
    widthResolution := fun _ => 1
    maxWidth := fun _ => 0
    knows := fun _ => true
    discarded := fun _ => false }

/-- C5 witness: a 1.9 m passenger lane (minimum 2 m, step 1 m)
quantises up to 2 m, is stepped back down to 1 m, and is downgraded. -/
theorem C5_amended_narrow_downgrade_witness :
    (setLaneAttributes tcC5w true 2 laneC5w).width = 1 ∧
    (setLaneAttributes tcC5w true 2 laneC5w).permissions =
      SVC_EMERGENCY ||| SVC_AUTHORITY := by
  have hpre : preQuantWidth tcC5w true laneC5w = 19/10 := by
    norm_num [preQuantWidth, tcC5w, laneC5w, UNSPECIFIED_WIDTH]
  have h := C5_amended_narrow_downgrade tcC5w true 2 laneC5w
  refine ⟨?_, ?_⟩
  · rw [h.2 (by rw [hpre]; norm_num) (by decide)
      (by rw [hpre]; norm_num [tcC5w]) (by rw [hpre]; norm_num)
      (by norm_num [tcC5w]) (by norm_num [tcC5w])
      (by rw [hpre]; norm_num [tcC5w])]
    rw [hpre]
    norm_num [tcC5w, POSITION_EPS]
  · rw [h.1, if_pos]
    exact ⟨by rw [hpre]; norm_num, by decide, by rw [hpre]; norm_num [tcC5w]⟩

/-! ## Claim C1: edge identifiers of the Edge Emitter -/

/-- The demonstration lane section for claim C1: one lane per side. -/
def secC1 : OpenDriveLaneSection :=
  { s := 0, sOrig := 0, rightLaneNumber := 1, leftLaneNumber := 1 }

/-- C1 counterexample: a straight road "R" with one lane section and
one lane per side, with distinct from/to nodes, is emitted as the two
edges "-R.0.00" and "R.0.00" — carrying the fixed ".0.00" suffix of
line 410 — and not as the bare "R" and "-R" of the claim. -/
theorem C1_counterexample :
    (buildRoadEdges "R" false 100 [(0, 0), (100, 0)] [secC1]).map
        EmittedEdge.id = ["-R.0.00", "R.0.00"] ∧
    "R" ∉ (buildRoadEdges "R" false 100 [(0, 0), (100, 0)] [secC1]).map
        EmittedEdge.id ∧
    "-R" ∉ (buildRoadEdges "R" false 100 [(0, 0), (100, 0)] [secC1]).map
        EmittedEdge.id := by
  decide

/-- Auxiliary induction for claim C1: every edge emitted by the
section loop carries the `"." ++ fmt2 s` suffix of some processed
section, provided the loop does not start a sole section at the road's
own from-node. -/
theorem buildSectionEdges_suffix (roadId : String) (total : Nat) :
    ∀ (secs : List OpenDriveLaneSection) (j : Nat) (sFrom : NodeRef),
      sFrom ≠ NodeRef.roadFrom ∨ 2 ≤ secs.length →
      ∀ e ∈ buildSectionEdges roadId NodeRef.roadFrom NodeRef.roadTo total j
          sFrom secs,
        ∃ sec ∈ secs, e.id = roadId ++ "." ++ fmt2 sec.s ∨
          e.id = "-" ++ (roadId ++ "." ++ fmt2 sec.s)
  | [], _, _, _, e, he => by simp [buildSectionEdges] at he
  | sec :: rest, j, sFrom, hcond, e, he => by
    rcases eq_or_ne rest [] with hrest | hrest
    · subst hrest
      have hf : sFrom ≠ NodeRef.roadFrom := by
        rcases hcond with h | h
        · exact h
        · simp at h
      simp only [buildSectionEdges, if_pos rfl] at he
      rw [if_pos (Or.inl hf)] at he
      simp only [List.append_nil] at he
      rcases List.mem_append.mp he with hmem | hmem
      · split at hmem
        · simp only [List.mem_singleton] at hmem
          exact ⟨sec, List.mem_singleton_self sec, Or.inr (by rw [hmem])⟩
        · simp at hmem
      · split at hmem
        · simp only [List.mem_singleton] at hmem
          exact ⟨sec, List.mem_singleton_self sec, Or.inl (by rw [hmem])⟩
        · simp at hmem
    · simp only [buildSectionEdges, if_neg hrest] at he
      rw [if_pos (Or.inr (by simp))] at he
      rcases List.mem_append.mp he with hmem | hmem
      · rcases List.mem_append.mp hmem with hm | hm
        · split at hm
          · simp only [List.mem_singleton] at hm
            exact ⟨sec, List.mem_cons_self sec rest, Or.inr (by rw [hm])⟩
          · simp at hm
        · split at hm
          · simp only [List.mem_singleton] at hm
            exact ⟨sec, List.mem_cons_self sec rest, Or.inl (by rw [hm])⟩
          · simp at hm
      · obtain ⟨sec', hsec', hid⟩ := buildSectionEdges_suffix roadId total rest
          (j + 1) (NodeRef.interior j) (Or.inl (by simp)) e hmem
        exact ⟨sec', List.mem_cons_of_mem sec hsec', hid⟩

/-- C1 amended: an outer road with exactly one lane section and
distinct from/to nodes is emitted as the forward edge
`"-" ++ roadId ++ ".0.00"` and the backward edge `roadId ++ ".0.00"` —
the fixed ".0.00" suffix, which coincides with "." ++ toString(0.0) —
while a road split across n ≥ 2 lane sections gets the
section-start-arclength suffix `"." ++ <s>` on every section's edges. -/
theorem C1_amended_naming (roadId : String) (len : ℚ) (geom : List Pos)
    (sec : OpenDriveLaneSection) (sections : List OpenDriveLaneSection)
    (hg : 2 ≤ geom.length) (hr : 0 < sec.rightLaneNumber)
    (hl : 0 < sec.leftLaneNumber) (hs : 2 ≤ sections.length) :
    (buildRoadEdges roadId false len geom [sec]).map EmittedEdge.id =
      ["-" ++ (roadId ++ ".0.00"), roadId ++ ".0.00"] ∧
    ∀ e ∈ buildRoadEdges roadId false len geom sections,
      ∃ s ∈ sections, e.id = roadId ++ "." ++ fmt2 s.s ∨
        e.id = "-" ++ (roadId ++ "." ++ fmt2 s.s) := by
  have hg2 : ¬ geom.length < 2 := not_lt.mpr hg
  constructor
  · simp only [buildRoadEdges, if_neg hg2, Bool.false_eq_true, if_false]
    simp [buildSectionEdges, hr, hl]
  · intro e he
    have hms : buildRoadEdges roadId false len geom sections =
        buildSectionEdges roadId NodeRef.roadFrom NodeRef.roadTo
          sections.length 0 NodeRef.roadFrom sections := by
      match sections, hs with
      | a :: b :: t, _ => simp [buildRoadEdges, if_neg hg2]
    rw [hms] at he
    exact buildSectionEdges_suffix roadId sections.length sections 0
      NodeRef.roadFrom (Or.inr hs) e he

/-- A second demonstration section for the C1 witness. -/
def secC1b : OpenDriveLaneSection :=
  { s := 50, sOrig := 0, rightLaneNumber := 1 }

/-- C1 witness: the single-section road "R" concretely yields the edge
ids "-R.0.00" and "R.0.00". -/
theorem C1_amended_naming_witness :
    (buildRoadEdges "R" false 100 [(0, 0), (100, 0)] [secC1]).map
        EmittedEdge.id = ["-" ++ ("R" ++ ".0.00"), "R" ++ ".0.00"] :=
  (C1_amended_naming "R" 100 [(0, 0), (100, 0)] secC1 [secC1, secC1b]
    (by decide) (by decide) (by decide) (by decide)).1

/-! ## Claim C2: speed propagation across split sections -/

/-- The demonstration type catalogue for claim C2: type default speed
13.89 m/s for "driving". -/
def tcC2 : TypeCont :=
  { speed := fun t => if t = "driving" then 1389/100 else 0
    permissions := fun _ => 0
    width := fun _ => 0
    widthResolution := fun _ => 0
    maxWidth := fun _ => 0
    knows := fun _ => true
    discarded := fun _ => false }

/-- The demonstration lane section for claim C2: one right lane with a
single speed entry at sOffset 50 and no entry at offset 0. -/
def secC2 : OpenDriveLaneSection :=
  { s := 0, sOrig := 0
    lanesRight := [{ id := -1, type := "driving", speeds := [(50, 10)] }] }

/-- C2 (code bug at line 1681): splitting `secC2` by its speed change
yields two split sections; the second correctly carries the matching
entry's speed 10, but the first — whose lane has no matching entry —
keeps effective speed 0 instead of receiving the type default
13.89 m/s: the source computes `tc.getSpeed(l.type)` and discards the
result. -/
theorem C2_code_bug_eval :
    (buildSpeedChanges tcC2 secC2).1 = true ∧
    (buildSpeedChanges tcC2 secC2).2.map
        (fun sec => (sec.s, sec.lanesRight.map OpenDriveLane.speed)) =
      [(0, [0]), (50, [10])] ∧
    tcC2.speed "driving" = 1389/100 ∧ (0 : ℚ) ≠ 1389/100 := by
  refine ⟨?_, ?_, by norm_num [tcC2], by norm_num⟩
  · norm_num [buildSpeedChanges, secC2, setInsert, buildLaneSection,
      propagateSpeeds, propagateSpeedsGo, propagateLanes]
  · norm_num [buildSpeedChanges, secC2, setInsert, buildLaneSection,
      propagateSpeeds, propagateSpeedsGo, propagateLanes]

/-! ## Claim C8: degenerate spirals -/

/-- The first demonstration spiral for claim C8: curvature constantly 0
over length 10, starting at the origin. -/
def spiralC8a : OpenDriveGeometry :=
  { length := 10, s := 0, x := 1, y := 0, hdg := 0, params := [0, 0] }

/-- The second demonstration spiral for claim C8, equally degenerate,
starting at (10,0). -/
def spiralC8b : OpenDriveGeometry :=
  { length := 10, s := 10, x := 11, y := 0, hdg := 0, params := [0, 0] }

/-- A vacuous stand-in for the external clothoid sampler; it is never
consulted on degenerate spirals. -/
def extC8 : OpenDriveGeometry → List Pos := fun _ => []

/-- The demonstration lane section for claim C8: one right lane. -/
def secC8 : OpenDriveLaneSection :=
  { s := 0, sOrig := 0, rightLaneNumber := 1 }

/-- The concatenated polyline of the two-degenerate-spiral road of
claim C8. -/
def geomC8 : List Pos :=
  computeShape [(GeomType.spiral, (geomFromSpiral extC8 spiralC8a).1),
                (GeomType.spiral, (geomFromSpiral extC8 spiralC8b).1)]

/-- Evaluation of the degenerate spiral discretisations of claim C8. -/
theorem geomFromSpiralC8_eval :
    geomFromSpiral extC8 spiralC8a = ([(1, 0)], true) ∧
    geomFromSpiral extC8 spiralC8b = ([(11, 0)], true) := by
  constructor
  · norm_num [geomFromSpiral, spiralC8a, List.getD]
  · norm_num [geomFromSpiral, spiralC8b, List.getD]

/-- Evaluation of the two-degenerate-spiral polyline of claim C8. -/
theorem geomC8_eval : geomC8 = [(1, 0), (11, 0)] := by
  rw [geomC8, geomFromSpiralC8_eval.1, geomFromSpiralC8_eval.2]
  have h1 : almostSame (11, 0) (1, 0) = false := by
    norm_num [almostSame, POSITION_EPS]
  have h2 : (GeomType.spiral = GeomType.line) = False :=
    eq_false (by decide)
  have h3 : (GeomType.unknown = GeomType.line) = False :=
    eq_false (by decide)
  simp [computeShape, addSegmentFull, addSegment, push_back_noDoublePos,
    h1, h2, h3]

/-- C8 counterexample: in a road made of two degenerate spiral
segments, each segment's "other segments" supply exactly one polyline
vertex — fewer than 2 — yet the concatenated polyline has two vertices
and the road does yield edges, contrary to the claim's "iff the other
segments supply at least 2 polyline vertices". -/
theorem C8_counterexample :
    (geomFromSpiral extC8 spiralC8b).1.length = 1 ∧
    geomC8 = [(1, 0), (11, 0)] ∧
    buildRoadEdges "S" false 20 geomC8 [secC8] ≠ [] := by
  refine ⟨?_, geomC8_eval, ?_⟩
  · rw [geomFromSpiralC8_eval.2]
    rfl
  · rw [geomC8_eval]
    decide

/-- C8 amended: a spiral whose curvature rate (c1−c0)/L is exactly
zero or whose length is zero discretises, with a warning, to exactly
its start point; a road is skipped precisely when its whole
concatenated polyline — the degenerate segment's start point included —
has fewer than 2 vertices, so a single additional distinct vertex
supplied by the other segments already yields edges, as the
two-degenerate-spiral road shows. -/
theorem C8_amended_degenerate_spiral :
    (∀ (ext : OpenDriveGeometry → List Pos) (g : OpenDriveGeometry),
      (g.params.getD 1 0 - g.params.getD 0 0) / g.length = 0 ∨
        g.length = 0 →
      geomFromSpiral ext g = ([(g.x, g.y)], true)) ∧
    (∀ (roadId : String) (fromEqTo : Bool) (len : ℚ)
        (sections : List OpenDriveLaneSection) (geom : List Pos),
      geom.length < 2 →
      buildRoadEdges roadId fromEqTo len geom sections = []) ∧
    buildRoadEdges "S" false 20 geomC8 [secC8] ≠ [] := by
  refine ⟨?_, ?_, ?_⟩
  · intro ext g hdeg
    simp only [geomFromSpiral]
    rw [if_pos hdeg]
  · intro roadId fromEqTo len sections geom hlt
    simp [buildRoadEdges, hlt]
  · rw [geomC8_eval]
    decide

/-- C8 witness: the concrete degenerate spiral discretises to its start
point with the warning raised. -/
theorem C8_amended_degenerate_spiral_witness :
    geomFromSpiral extC8 spiralC8a = ([(1, 0)], true) :=
  C8_amended_degenerate_spiral.1 extC8 spiralC8a
    (Or.inl (by norm_num [spiralC8a, List.getD]))

/-! ## Claim C6: the flattened connection list targets no inner road -/

/-- `rewriteFrom` keeps the destination edge. -/
theorem rewriteFrom_toEdge (c j : Connection) :
    (rewriteFrom c j).toEdge = j.toEdge := rfl

/-- `rewriteOuter` keeps the destination edge. -/
theorem rewriteOuter_toEdge (c i : Connection) :
    (rewriteOuter c i).toEdge = i.toEdge := rfl

/-- Invariant of the walk loop: when the recursive walk only returns
connections towards non-inner edges, and the accumulator already
satisfies the same, so does the loop's result. -/
theorem buildStep_inv (inner : EdgeTable)
    (recur : Connection → SeenSet → List Connection × SeenSet)
    (hrec : ∀ c' s, ∀ x ∈ (recur c' s).1, lookupEdge inner x.toEdge = none)
    (dest : EdgeRec) (c : Connection) :
    ∀ (l : List Connection) (acc : List Connection × SeenSet),
      (∀ x ∈ acc.1, lookupEdge inner x.toEdge = none) →
      ∀ x ∈ (buildStep recur inner dest c l acc).1,
        lookupEdge inner x.toEdge = none
  | [], acc, hacc => hacc
  | i :: rest, acc, hacc => by
    rw [buildStep]
    by_cases h1 : (lookupEdge inner i.toEdge).isSome
    · rw [if_pos h1]
      by_cases h2 : connKey i ∉ acc.2
      · rw [if_pos h2]
        refine buildStep_inv inner recur hrec dest c rest _ ?_
        intro x hx
        rcases List.mem_append.mp hx with hm | hm
        · exact hacc x hm
        · rcases List.mem_map.mp hm with ⟨j, hj, hxj⟩
          rw [← hxj, rewriteFrom_toEdge]
          exact hrec i acc.2 j hj
      · rw [if_neg h2]
        exact buildStep_inv inner recur hrec dest c rest acc hacc
    · rw [if_neg h1]
      by_cases h3 : laneSectionsConnected dest c.toLane i.fromLane = true
      · rw [if_pos h3]
        refine buildStep_inv inner recur hrec dest c rest _ ?_
        intro x hx
        rcases List.mem_append.mp hx with hm | hm
        · exact hacc x hm
        · rw [List.mem_singleton.mp hm, rewriteOuter_toEdge]
          exact Option.not_isSome_iff_eq_none.mp (by simpa using h1)
      · rw [if_neg h3]
        exact buildStep_inv inner recur hrec dest c rest acc hacc

/-- The flattening walk emits no connection towards an inner edge. -/
theorem buildConnectionsToOuter_inv :
    ∀ (fuel : Nat) (inner : EdgeTable) (c : Connection) (seen : SeenSet),
      ∀ x ∈ (buildConnectionsToOuter fuel inner c seen).1,
        lookupEdge inner x.toEdge = none
  | 0, inner, c, seen => by simp [buildConnectionsToOuter]
  | fuel + 1, inner, c, seen => by
    intro x hx
    rw [buildConnectionsToOuter] at hx
    cases h : lookupEdge inner c.toEdge with
    | none => rw [h] at hx; simp at hx
    | some dest =>
      rw [h] at hx
      exact buildStep_inv inner _
        (fun c' s => buildConnectionsToOuter_inv fuel inner c' s)
        dest c dest.connections ([], connKey c :: seen) (by simp) x hx

/-- C6: every connection produced by the flattener has a `toEdge`
outside the inner-edge table, and every stored connection with outer
origin and outer destination is emitted unchanged. -/
theorem C6_flatten_no_inner_target (fuel : Nat) (inner edges : EdgeTable) :
    (∀ x ∈ flattenConnections fuel inner edges,
      lookupEdge inner x.toEdge = none) ∧
    (∀ e ∈ edges, ∀ c ∈ e.2.connections,
      lookupEdge inner c.fromEdge = none →
      lookupEdge inner c.toEdge = none →
      c ∈ flattenConnections fuel inner edges) := by
  constructor
  · intro x hx
    rw [flattenConnections] at hx
    rcases List.mem_flatMap.mp hx with ⟨e, _, hx⟩
    rcases List.mem_flatMap.mp hx with ⟨c, _, hx⟩
    rw [flattenOne] at hx
    split_ifs at hx with h1 h2
    · simp at hx
    · exact buildConnectionsToOuter_inv fuel inner c [] x hx
    · rw [List.mem_singleton.mp hx]
      exact Option.not_isSome_iff_eq_none.mp h2
  · intro e he c hc hfrom hto
    rw [flattenConnections]
    refine List.mem_flatMap.mpr ⟨e, he, List.mem_flatMap.mpr ⟨c, hc, ?_⟩⟩
    rw [flattenOne, if_neg (by simp [hfrom]), if_neg (by simp [hto])]
    exact List.mem_singleton_self c

/-- The demonstration connection for the C6 witness. -/
def connC6 : Connection :=
  { fromEdge := "A", toEdge := "B", fromLane := -1, toLane := -1,
    fromCP := ContactPoint.cpEnd, toCP := ContactPoint.cpStart,
    all := false }

/-- The demonstration road table for the C6 witness. -/
def edgesC6 : EdgeTable :=
  [("A", { connections := [connC6], laneSections := [] })]

/-- C6 witness: the outer→outer connection A→B is emitted unchanged by
the flattener over an empty inner table. -/
theorem C6_flatten_no_inner_target_witness :
    connC6 ∈ flattenConnections 1 [] edgesC6 :=
  (C6_flatten_no_inner_target 1 [] edgesC6).2
    ("A", { connections := [connC6], laneSections := [] })
    (by simp [edgesC6]) connC6 (by simp) rfl rfl

/-! ## Claim C7: monotone lane-section arclengths -/

/-- A true strict-order check yields a strictly increasing chain whose
head lies above the carried `lastS`. -/
theorem sectionsSortedOD_chain :
    ∀ (l : List OpenDriveLaneSection) (lastS : ℚ),
      sectionsSortedOD lastS l = true →
      List.Chain' (fun a b => a.s < b.s) l ∧ ∀ h ∈ l.head?, lastS < h.s
  | [], _, _ => ⟨List.chain'_nil, by simp⟩
  | sec :: rest, lastS, h => by
    rw [sectionsSortedOD] at h
    split_ifs at h with hle
    obtain ⟨hchain, hhead⟩ := sectionsSortedOD_chain rest sec.s h
    refine ⟨List.chain'_cons'.mpr ⟨fun y hy => hhead y hy, hchain⟩, ?_⟩
    simp only [List.head?_cons, Option.mem_def, Option.some.injEq]
    rintro y rfl
    exact lt_of_not_le hle

/-- The sorting stage of `revisitLaneSections` always yields a
non-decreasing chain of `s` values. -/
theorem sortStage_chain (ns : List OpenDriveLaneSection) :
    List.Chain' (fun a b => a.s ≤ b.s)
      (if sectionsSortedOD (-1) ns then ns else sortSections ns) := by
  split_ifs with h
  · exact ((sectionsSortedOD_chain ns (-1) h).1).imp
      (fun a b hab => le_of_lt hab)
  · have hp := @List.sorted_mergeSort OpenDriveLaneSection
      (fun a b => decide (a.s ≤ b.s))
      (fun a b c hab hbc => by
        simp only [decide_eq_true_eq] at *
        exact le_trans hab hbc)
      (fun a b => by simp [le_total])
      ns
    have hp' : List.Pairwise (fun (a b : OpenDriveLaneSection) => a.s ≤ b.s)
        (sortSections ns) := by
      rw [sortSections]
      exact hp.imp (fun hab => by simpa using hab)
    exact hp'.chain'

/-- `pruneSimilar` keeps every section of an inner road. -/
theorem pruneSimilar_inner :
    ∀ (l : List OpenDriveLaneSection) (lastS : ℚ),
      pruneSimilar true lastS l = l
  | [], _ => rfl
  | sec :: rest, lastS => by
    rw [pruneSimilar, if_neg (by simp), pruneSimilar_inner rest sec.s]

/-- Core estimate for the outer-road filter: on a non-decreasing chain
bounded below by `lastS`, the result is strictly increasing and starts
at least `POSITION_EPS` above `lastS`. -/
theorem pruneSimilar_sparse :
    ∀ (l : List OpenDriveLaneSection) (lastS : ℚ),
      List.Chain' (fun a b => a.s ≤ b.s) l →
      (∀ h ∈ l.head?, lastS ≤ h.s) →
      List.Chain' (fun a b => a.s < b.s) (pruneSimilar false lastS l) ∧
      ∀ y ∈ (pruneSimilar false lastS l).head?, lastS + POSITION_EPS ≤ y.s
  | [], _, _, _ => ⟨List.chain'_nil, by simp [pruneSimilar]⟩
  | sec :: rest, lastS, hchain, hhead => by
    have hrest_chain : List.Chain' (fun a b => a.s ≤ b.s) rest := hchain.tail
    have hrest_head : ∀ h ∈ rest.head?, sec.s ≤ h.s :=
      (List.chain'_cons'.mp hchain).1
    have hsec : lastS ≤ sec.s := hhead sec (by simp)
    have heps : (0 : ℚ) < POSITION_EPS := by norm_num [POSITION_EPS]
    obtain ⟨hc, hh⟩ := pruneSimilar_sparse rest sec.s hrest_chain hrest_head
    rw [pruneSimilar]
    split_ifs with hcond
    · refine ⟨hc, fun y hy => ?_⟩
      have hy' := hh y hy
      linarith
    · have hkeep : POSITION_EPS ≤ |sec.s - lastS| :=
        le_of_not_lt (fun hlt => hcond ⟨hlt, rfl⟩)
      have hs_eps : lastS + POSITION_EPS ≤ sec.s := by
        rw [abs_of_nonneg (by linarith : (0 : ℚ) ≤ sec.s - lastS)] at hkeep
        linarith
      refine ⟨List.chain'_cons'.mpr ⟨fun y hy => ?_, hc⟩, ?_⟩
      · have hy' := hh y hy
        linarith
      · simp only [List.head?_cons, Option.mem_def, Option.some.injEq]
        rintro y rfl
        exact hs_eps

/-- The outer-road filter of a non-decreasing chain is strictly
increasing, whatever the initial `lastS` sentinel. -/
theorem pruneSimilar_strict :
    ∀ (l : List OpenDriveLaneSection) (lastS : ℚ),
      List.Chain' (fun a b => a.s ≤ b.s) l →
      List.Chain' (fun a b => a.s < b.s) (pruneSimilar false lastS l)
  | [], _, _ => List.chain'_nil
  | sec :: rest, lastS, hchain => by
    have hrest_chain : List.Chain' (fun a b => a.s ≤ b.s) rest := hchain.tail
    have hrest_head : ∀ h ∈ rest.head?, sec.s ≤ h.s :=
      (List.chain'_cons'.mp hchain).1
    have heps : (0 : ℚ) < POSITION_EPS := by norm_num [POSITION_EPS]
    obtain ⟨hc, hh⟩ := pruneSimilar_sparse rest sec.s hrest_chain hrest_head
    rw [pruneSimilar]
    split_ifs with hcond
    · exact hc
    · refine List.chain'_cons'.mpr ⟨fun y hy => ?_, hc⟩
      have hy' := hh y hy
      linarith

/-- C7: after `revisitLaneSections` a road's lane-section arclengths
are strictly increasing when the road is outer and non-decreasing when
it is inner. -/
theorem C7_sections_monotone (tc : TypeCont) (isInner : Bool)
    (sections : List OpenDriveLaneSection) :
    (isInner = false →
      List.Chain' (fun a b => a.s < b.s)
        (revisitLaneSections tc isInner sections)) ∧
    (isInner = true →
      List.Chain' (fun a b => a.s ≤ b.s)
        (revisitLaneSections tc isInner sections)) := by
  constructor
  · rintro rfl
    rw [revisitLaneSections]
    exact pruneSimilar_strict _ (-1) (sortStage_chain _)
  · rintro rfl
    rw [revisitLaneSections]
    rw [pruneSimilar_inner]
    exact sortStage_chain _

/-- The demonstration type catalogue for the C7 witness. -/
def tcC7 : TypeCont :=
  { speed := fun _ => 0
    permissions := fun _ => 0
    width := fun _ => 0
    widthResolution := fun _ => 0
    maxWidth := fun _ => 0
    knows := fun _ => true
    discarded := fun _ => false }

/-- The first demonstration section for the C7 witness. -/
def secC7a : OpenDriveLaneSection := { s := 0, sOrig := 0 }

/-- The second demonstration section for the C7 witness, within
`POSITION_EPS` of the first. -/
def secC7b : OpenDriveLaneSection := { s := 1/100, sOrig := 1/100 }

/-- C7 witness: the revisited outer-road sections of the demonstration
road form a strictly increasing chain. -/
theorem C7_sections_monotone_witness :
    List.Chain' (fun a b => a.s < b.s)
      (revisitLaneSections tcC7 false [secC7a, secC7b]) :=
  (C7_sections_monotone tcC7 false [secC7a, secC7b]).1 rfl

end OpenDriveImport
